/- Verification development for jupyterhub-multioauthenticator
   (src/multioauthenticator/multioauthenticator.py).

   Shallow embedding of the provider-dispatch core: the MultiOAuthenticator
   facade (credential context, callback-URL resolution, route registration,
   authenticate dispatch) and the MultiOAuthLoginHandler chooser POST.
   Python exceptions are modelled with Except; object-field mutation is
   modelled by explicit state passing (a mutated state is returned even on
   the error path, matching Python semantics where attribute writes that
   happen before a raise persist). -/
import Mathlib

namespace MultiOAuth

/-- The concrete tornado handler classes that the source's isinstance tests
distinguish.  `googleLogin` is GoogleLoginHandler, `googleCallback` is
GoogleOAuthHandler (google's callback handler), and so on for the other
providers; `multiLogin` is MultiOAuthLoginHandler itself; `other` stands for
any handler of none of these classes.  None of these classes inherits from
another, so isinstance is plain constructor equality. -/
inductive HandlerClass where
  | googleLogin
  | googleCallback
  | githubLogin
  | githubCallback
  | gitlabLogin
  | gitlabCallback
  | multiLogin
  | other
deriving DecidableEq

/-- The parts of a tornado request that the source reads:
`handler.request.protocol`, `handler.request.host`, `handler.request.uri`
(origin form: path plus optional query). -/
structure Request where
  protocol : String
  host : String
  uri : String
deriving DecidableEq

/-- A tornado handler: its concrete class plus its request. -/
structure Handler where
  cls : HandlerClass
  request : Request
deriving DecidableEq

/-- Model of `isinstance(handler, GoogleLoginHandler)`. -/
def isGoogleLoginHandler : HandlerClass → Bool
  | HandlerClass.googleLogin => true
  | _ => false

/-- Model of `isinstance(handler, GitHubLoginHandler)`. -/
def isGitHubLoginHandler : HandlerClass → Bool
  | HandlerClass.githubLogin => true
  | _ => false

/-- Model of `isinstance(handler, GitLabLoginHandler)`. -/
def isGitLabLoginHandler : HandlerClass → Bool
  | HandlerClass.gitlabLogin => true
  | _ => false

/-- Model of `isinstance(handler, GoogleOAuthHandler)` (google's callback handler). -/
def isGoogleOAuthHandler : HandlerClass → Bool
  | HandlerClass.googleCallback => true
  | _ => false

/-- Collaborator model (oauthenticator package, external to this repo): one
sub-authenticator instance, exposing the attributes the repo's code reads:
`client_id`, `client_secret`, `scope`, `oauth_callback_url` (a Unicode trait
whose unconfigured default is the empty string), its two handler classes,
and its own `authenticate`. -/
structure SubAuthenticator where
  client_id : String
  client_secret : String
  scope : List String
  oauth_callback_url : String
  login_handler : HandlerClass
  callback_handler : HandlerClass
  authenticate : Handler → List (String × String) → Option String

/-- Collaborator model: `OAuthenticator.get_handlers` of the oauthenticator
package returns its login handler under the key `/oauth_login` and its
callback handler under `/oauth_callback`, which is exactly how the repo's
`get_handlers` indexes the returned dict. -/
def SubAuthenticator.get_handlers (a : SubAuthenticator) : List (String × HandlerClass) :=
  [("/oauth_login", a.login_handler), ("/oauth_callback", a.callback_handler)]

/-- One section of the traitlets `self.config` object, as read by
`self.config.github_authenticator.oauth_callback_url`: `none` for the
`oauth_callback_url` field models the attribute being absent from the
section (attribute access then raises AttributeError). -/
structure ConfigSection where
  oauth_callback_url : Option String

/-- The traitlets `self.config` object, restricted to the two lowercase
attributes the source reads.  A lowercase attribute that was never set is
absent (`none`), and reading it raises AttributeError (traitlets `Config`
auto-creates only capitalized section keys). -/
structure TraitletsConfig where
  github_authenticator : Option ConfigSection
  gitlab_authenticator : Option ConfigSection

/-- Python exceptions raised by the embedded code. -/
inductive PyError where
  | valueError (msg : String)
  | attributeError (attr : String)
  | keyError (key : String)
deriving DecidableEq

/-- The MultiOAuthenticator instance state: the three enable flags, the three
sub-authenticator instances, the traitlets config object, and the private
credential-context fields `__client_id` / `__client_secret` / `__scope`
(exposed read-only through the `client_id` / `client_secret` / `scope`
properties, hence modelled directly as the property values). -/
structure MultiOAuthenticator where
  enable_google : Bool
  enable_github : Bool
  enable_gitlab : Bool
  google_authenticator : SubAuthenticator
  github_authenticator : SubAuthenticator
  gitlab_authenticator : SubAuthenticator
  config : TraitletsConfig
  client_id : Option String
  client_secret : Option String
  scope : Option (List String)

/-- Source `MultiOAuthenticator.__init__`: the credential-context fields start as
`None`. -/
def MultiOAuthenticator.init (eg eh el : Bool) (ga gha gla : SubAuthenticator)
    (cfg : TraitletsConfig) : MultiOAuthenticator :=
  { enable_google := eg
    enable_github := eh
    enable_gitlab := el
    google_authenticator := ga
    github_authenticator := gha
    gitlab_authenticator := gla
    config := cfg
    client_id := none
    client_secret := none
    scope := none }

/-- Source `MultiOAuthenticator.set_oauth_tokens`: caches the sub-authenticator's
client_id, client_secret and scope in the private fields. -/
def MultiOAuthenticator.set_oauth_tokens (st : MultiOAuthenticator)
    (subauth : SubAuthenticator) : MultiOAuthenticator :=
  { st with
    client_id := some subauth.client_id
    client_secret := some subauth.client_secret
    scope := some subauth.scope }

/-- Python truthiness of a string: the empty string is falsy. -/
def truthyS (s : String) : Bool := s != ""

/-- Python truthiness of `get_argument(name, None)`: `None` and the empty
string are falsy. -/
def truthyOpt : Option String → Bool
  | none => false
  | some s => s != ""

/-- Model of `urlsplit(uri).path` for an origin-form request URI (as
`handler.request.uri` always is): the prefix before the first `?` or `#`. -/
def urlsplitPath (uri : String) : String :=
  String.mk (uri.data.takeWhile (fun c => c != '?' && c != '#'))

/-- Python `path.replace('/login', '/callback')`: scan left to right, replace
every non-overlapping occurrence of `/login`, resuming after the inserted
replacement. -/
def replaceLogin : List Char → List Char
  | '/' :: 'l' :: 'o' :: 'g' :: 'i' :: 'n' :: rest =>
      '/' :: 'c' :: 'a' :: 'l' :: 'l' :: 'b' :: 'a' :: 'c' :: 'k' :: replaceLogin rest
  | c :: rest => c :: replaceLogin rest
  | [] => []

/-- Source expression `parts.path.replace('/login', '/callback')` as a String operation. -/
def replaceLoginCallback (s : String) : String := String.mk (replaceLogin s.data)

/-- The fall-through tail of `get_callback_url`:
`'{}://{}{}'.format(request.protocol, request.host,
 urlsplit(request.uri).path.replace('/login', '/callback'))`. -/
def synthURL (h : Handler) : String :=
  h.request.protocol ++ "://" ++ h.request.host
    ++ replaceLoginCallback (urlsplitPath h.request.uri)

/-- Tail of the GitLab block after the credentials were cached (`st` is the
mutated self): read `self.config.gitlab_authenticator.oauth_callback_url`
(note: from the traitlets config object, not the instance) and return it if
truthy; otherwise fall through to URL synthesis. -/
def gitlabBlockTail (st : MultiOAuthenticator) (h : Handler) :
    MultiOAuthenticator × Except PyError String :=
  match st.config.gitlab_authenticator with
  | none => (st, Except.error (PyError.attributeError "gitlab_authenticator"))
  | some sec =>
    match sec.oauth_callback_url with
    | none => (st, Except.error (PyError.attributeError "oauth_callback_url"))
    | some url =>
      if truthyS url then (st, Except.ok url) else (st, Except.ok (synthURL h))

/-- The GitLab block of `get_callback_url`: on isinstance(GitLabLoginHandler)
cache the gitlab credentials and continue with the block tail; otherwise
fall through to URL synthesis. -/
def gitlabBlock (st : MultiOAuthenticator) (h : Handler) :
    MultiOAuthenticator × Except PyError String :=
  if isGitLabLoginHandler h.cls then
    gitlabBlockTail (st.set_oauth_tokens st.gitlab_authenticator) h
  else (st, Except.ok (synthURL h))

/-- Tail of the GitHub block after the credentials were cached (`st` is the
mutated self): read `self.config.github_authenticator.oauth_callback_url`
(note: from the traitlets config object, not the instance) and return it if
truthy; otherwise continue with the gitlab block. -/
def githubBlockTail (st : MultiOAuthenticator) (h : Handler) :
    MultiOAuthenticator × Except PyError String :=
  match st.config.github_authenticator with
  | none => (st, Except.error (PyError.attributeError "github_authenticator"))
  | some sec =>
    match sec.oauth_callback_url with
    | none => (st, Except.error (PyError.attributeError "oauth_callback_url"))
    | some url =>
      if truthyS url then (st, Except.ok url) else gitlabBlock st h

/-- The GitHub block of `get_callback_url`: on isinstance(GitHubLoginHandler)
cache the github credentials and continue with the block tail; otherwise
continue with the gitlab block. -/
def githubBlock (st : MultiOAuthenticator) (h : Handler) :
    MultiOAuthenticator × Except PyError String :=
  if isGitHubLoginHandler h.cls then
    githubBlockTail (st.set_oauth_tokens st.github_authenticator) h
  else gitlabBlock st h

/-- Tail of the Google block after the credentials were cached (`st` is the
mutated self): return `self.google_authenticator.oauth_callback_url` if
truthy, else continue with the github block. -/
def googleBlockTail (st : MultiOAuthenticator) (h : Handler) :
    MultiOAuthenticator × Except PyError String :=
  if truthyS st.google_authenticator.oauth_callback_url then
    (st, Except.ok st.google_authenticator.oauth_callback_url)
  else githubBlock st h

/-- Source `MultiOAuthenticator.get_callback_url(handler=None)`.  Raises ValueError
on a missing handler; otherwise runs the three sequential isinstance blocks
(google reads `self.google_authenticator.oauth_callback_url`; github and
gitlab read the traitlets config object instead) and finally synthesizes a
callback URL from the request.  The (possibly mutated) instance state is
returned alongside the result, error or not, matching Python semantics where
attribute writes before a raise persist. -/
def MultiOAuthenticator.get_callback_url (st : MultiOAuthenticator)
    (handler : Option Handler) : MultiOAuthenticator × Except PyError String :=
  match handler with
  | none => (st, Except.error (PyError.valueError "MultiAuthenticator only works with a handler"))
  | some h =>
    if isGoogleLoginHandler h.cls then
      googleBlockTail (st.set_oauth_tokens st.google_authenticator) h
    else githubBlock st h

/-- Dict indexing `d[k]`: KeyError when the key is absent. -/
def dictGet (d : List (String × HandlerClass)) (k : String) :
    Except PyError HandlerClass :=
  match d.find? (fun p => p.1 == k) with
  | some p => Except.ok p.2
  | none => Except.error (PyError.keyError k)

/-- One enabled-provider block of `get_handlers`:
`handlers = dict(sub.get_handlers(app));
 [(loginPath, handlers['/oauth_login']), (callbackPath, handlers['/oauth_callback'])]`,
or the empty contribution when the provider is disabled. -/
def providerRoutes (enabled : Bool) (loginPath callbackPath : String)
    (a : SubAuthenticator) : Except PyError (List (String × HandlerClass)) :=
  if enabled then
    match dictGet a.get_handlers "/oauth_login", dictGet a.get_handlers "/oauth_callback" with
    | Except.ok lh, Except.ok ch => Except.ok [(loginPath, lh), (callbackPath, ch)]
    | Except.error e, _ => Except.error e
    | _, Except.error e => Except.error e
  else Except.ok []

/-- Source `MultiOAuthenticator.get_handlers(app)`: the shared `/login` chooser route
first, then the re-registered login/callback handler pair of each enabled
provider, in the fixed order google, github, gitlab. -/
def MultiOAuthenticator.get_handlers (st : MultiOAuthenticator) :
    Except PyError (List (String × HandlerClass)) :=
  match providerRoutes st.enable_google "/google/login" "/google/callback" st.google_authenticator,
        providerRoutes st.enable_github "/github/login" "/github/callback" st.github_authenticator,
        providerRoutes st.enable_gitlab "/gitlab/login" "/gitlab/callback" st.gitlab_authenticator with
  | Except.ok g, Except.ok gh, Except.ok gl =>
      Except.ok ([("/login", HandlerClass.multiLogin)] ++ g ++ gh ++ gl)
  | Except.error e, _, _ => Except.error e
  | _, Except.error e, _ => Except.error e
  | _, _, Except.error e => Except.error e

/-- Source `MultiOAuthenticator.authenticate(handler, data)`: delegates to the
google authenticator when the handler is a GoogleOAuthHandler, and to the
github authenticator in every other case (the gitlab branch is commented out
in the source). -/
def MultiOAuthenticator.authenticate (st : MultiOAuthenticator) (handler : Handler)
    (data : List (String × String)) : Option String :=
  if isGoogleOAuthHandler handler.cls then
    st.google_authenticator.authenticate handler data
  else
    st.github_authenticator.authenticate handler data

/-- tornado `handler.get_argument(name, default=None)` over the request's
form/query arguments: the last value bound to the name, if any. -/
def get_argument (args : List (String × String)) (name : String) : Option String :=
  (args.reverse.find? (fun p => p.1 == name)).map (fun p => p.2)

/-- One hexadecimal digit, uppercase, as Python's percent-encoder emits. -/
def hexDigit (n : Nat) : Char :=
  if n < 10 then Char.ofNat (48 + n) else Char.ofNat (55 + n)

/-- The `%XX` percent-encoding of one byte. -/
def percentByte (b : Nat) : List Char :=
  ['%', hexDigit (b / 16), hexDigit (b % 16)]

/-- UTF-8 encoding of a code point, as a list of byte values. -/
def utf8Bytes (n : Nat) : List Nat :=
  if n < 128 then [n]
  else if n < 2048 then [192 + n / 64, 128 + n % 64]
  else if n < 65536 then [224 + n / 4096, 128 + n / 64 % 64, 128 + n % 64]
  else [240 + n / 262144, 128 + n / 4096 % 64, 128 + n / 64 % 64, 128 + n % 64]

/-- Collaborator model (Python stdlib, used by tornado's url_concat):
`urllib.parse.quote_plus` applied to one character — ASCII alphanumerics and
`_.-~` pass through, space becomes `+`, everything else is percent-encoded
byte-wise. -/
def quotePlusChar (c : Char) : List Char :=
  if c.isAlphanum || c = '_' || c = '.' || c = '-' || c = '~' then [c]
  else if c = ' ' then ['+']
  else ((utf8Bytes c.toNat).map percentByte).flatten

/-- Model of `urllib.parse.quote_plus` over a string. -/
def quotePlus (s : String) : String :=
  String.mk (s.data.foldr (fun c acc => quotePlusChar c ++ acc) [])

/-- Collaborator model (tornado): `url_concat(url, {'next': nextval})` for a
URL without an existing query string. -/
def url_concat (url : String) (nextval : String) : String :=
  url ++ "?next=" ++ quotePlus nextval

/-- The request context available to `MultiOAuthLoginHandler.post`:
`self.request.protocol`, `self.request.host`, `self.hub.base_url` (ends with
a slash, e.g. `/hub/`), and the form/query arguments. -/
structure PostContext where
  protocol : String
  host : String
  hub_base_url : String
  args : List (String × String)
deriving DecidableEq

/-- The externally observable outcome of `MultiOAuthLoginHandler.post`:
either `self.redirect(url)` (tornado sends status 302 when
`permanent=False`, the default) or `self.finish(self._render(login_error))`
(status 200, the chooser page re-rendered with the error message). -/
inductive PostAction where
  | redirect (status : Nat) (url : String)
  | render (status : Nat) (login_error : Option String)
deriving DecidableEq

/-- Source `MultiOAuthLoginHandler.post`: check the three provider flags in the
fixed order google, github, gitlab; for the first whose provider is enabled
and whose `login_<key>` argument is truthy, redirect (302) to
`protocol://host{base_url}<key>/login` with the `next` argument appended;
otherwise re-render the chooser with an error and status 200. -/
def MultiOAuthLoginHandler.post (st : MultiOAuthenticator) (ctx : PostContext) :
    PostAction :=
  let nextval := (get_argument ctx.args "next").getD ""
  if st.enable_google && truthyOpt (get_argument ctx.args "login_google") then
    PostAction.redirect 302
      (url_concat (ctx.protocol ++ "://" ++ ctx.host ++ ctx.hub_base_url ++ "google/login") nextval)
  else if st.enable_github && truthyOpt (get_argument ctx.args "login_github") then
    PostAction.redirect 302
      (url_concat (ctx.protocol ++ "://" ++ ctx.host ++ ctx.hub_base_url ++ "github/login") nextval)
  else if st.enable_gitlab && truthyOpt (get_argument ctx.args "login_gitlab") then
    PostAction.redirect 302
      (url_concat (ctx.protocol ++ "://" ++ ctx.host ++ ctx.hub_base_url ++ "gitlab/login") nextval)
  else
    PostAction.render 200 (some "Unknown or missing authenticator")

/-! ## Spec-side definitions

Definitions below follow the specification's words (registry order, route
table shape, first-matching-provider selection); they are compared with the
embedded code in the theorems. -/

/-- A provider key of the registry, in the spec's closed set. -/
inductive Provider where
  | google
  | github
  | gitlab
deriving DecidableEq

/-- The spec's registry order: google, github, gitlab. -/
def registryOrder : List Provider := [Provider.google, Provider.github, Provider.gitlab]

/-- The enable flag of one provider. -/
def providerEnabled (st : MultiOAuthenticator) : Provider → Bool
  | Provider.google => st.enable_google
  | Provider.github => st.enable_github
  | Provider.gitlab => st.enable_gitlab

/-- The chooser form field of one provider. -/
def providerFlagName : Provider → String
  | Provider.google => "login_google"
  | Provider.github => "login_github"
  | Provider.gitlab => "login_gitlab"

/-- The provider-prefixed login path segment used in the redirect target. -/
def providerLoginPath : Provider → String
  | Provider.google => "google/login"
  | Provider.github => "github/login"
  | Provider.gitlab => "gitlab/login"

/-- Modelled from the spec: the first provider, in registry order, that is
enabled and whose chooser form flag is set (truthy). -/
def selectedProvider (st : MultiOAuthenticator) (ctx : PostContext) : Option Provider :=
  registryOrder.find?
    (fun p => providerEnabled st p && truthyOpt (get_argument ctx.args (providerFlagName p)))

/-- Modelled from the spec: the chooser redirect target
`<scheme>://<host><hubPrefix><providerKey>/login?next=<next>`. -/
def loginRedirectURL (ctx : PostContext) (p : Provider) : String :=
  url_concat (ctx.protocol ++ "://" ++ ctx.host ++ ctx.hub_base_url ++ providerLoginPath p)
    ((get_argument ctx.args "next").getD "")

/-- The route table `get_handlers` builds: the `/login` chooser first, then
each enabled provider's re-registered login/callback pair. -/
def multiRouteTable (st : MultiOAuthenticator) : List (String × HandlerClass) :=
  [("/login", HandlerClass.multiLogin)]
  ++ (if st.enable_google then
        [("/google/login", st.google_authenticator.login_handler),
         ("/google/callback", st.google_authenticator.callback_handler)] else [])
  ++ (if st.enable_github then
        [("/github/login", st.github_authenticator.login_handler),
         ("/github/callback", st.github_authenticator.callback_handler)] else [])
  ++ (if st.enable_gitlab then
        [("/gitlab/login", st.gitlab_authenticator.login_handler),
         ("/gitlab/callback", st.gitlab_authenticator.callback_handler)] else [])

/-- The number of enabled providers, `|P|`. -/
def enabledCount (st : MultiOAuthenticator) : Nat :=
  (if st.enable_google then 1 else 0) + (if st.enable_github then 1 else 0)
    + (if st.enable_gitlab then 1 else 0)

/-! ## Concrete example instances (used by witnesses and counterexamples) -/

/-- An example google sub-authenticator with no configured callback URL. -/
def exGoogleSub : SubAuthenticator :=
  { client_id := "google-client-id"
    client_secret := "google-secret"
    scope := ["openid", "email"]
    oauth_callback_url := ""
    login_handler := HandlerClass.googleLogin
    callback_handler := HandlerClass.googleCallback
    authenticate := fun _ _ => some "google-user" }

/-- An example github sub-authenticator with no configured callback URL. -/
def exGithubSub : SubAuthenticator :=
  { client_id := "github-client-id"
    client_secret := "github-secret"
    scope := ["read:user"]
    oauth_callback_url := ""
    login_handler := HandlerClass.githubLogin
    callback_handler := HandlerClass.githubCallback
    authenticate := fun _ _ => some "github-user" }

/-- An example gitlab sub-authenticator with no configured callback URL. -/
def exGitlabSub : SubAuthenticator :=
  { client_id := "gitlab-client-id"
    client_secret := "gitlab-secret"
    scope := ["read_user"]
    oauth_callback_url := ""
    login_handler := HandlerClass.gitlabLogin
    callback_handler := HandlerClass.gitlabCallback
    authenticate := fun _ _ => some "gitlab-user" }

/-- A freshly constructed dispatcher: all providers enabled, default (empty)
traitlets config, credential context still unset. -/
def exState : MultiOAuthenticator :=
  MultiOAuthenticator.init true true true exGoogleSub exGithubSub exGitlabSub ⟨none, none⟩

/-- A dispatcher whose user config supplies a `github_authenticator` section
with a configured callback URL (so the github block of `get_callback_url`
can complete without raising). -/
def exStateC2 : MultiOAuthenticator :=
  { exState with config := ⟨some ⟨some "https://github.example/cb"⟩, none⟩ }

/-- A dispatcher whose github and google adapters both carry configured
callback URLs, with the default (empty) traitlets config. -/
def exStateC3 : MultiOAuthenticator :=
  { exState with
    google_authenticator := { exGoogleSub with oauth_callback_url := "https://google.example/cb" }
    github_authenticator := { exGithubSub with oauth_callback_url := "https://github.example/cb" } }

/-- A dispatcher with github disabled (enabled set P = {google, gitlab}). -/
def exStateC4 : MultiOAuthenticator :=
  { exState with enable_github := false }

/-- A gitlab callback request, as delivered by the external IdP redirect. -/
def exGitlabCallbackHandler : Handler :=
  ⟨HandlerClass.gitlabCallback, ⟨"https", "hub.example.org", "/hub/gitlab/callback?code=abc&state=xyz"⟩⟩

/-- A handler of a class owned by no provider. -/
def exOtherHandler : Handler :=
  ⟨HandlerClass.other, ⟨"http", "hub.example.org", "/hub/foo/login"⟩⟩

/-- A google login request (attempt A of the interleaving trace). -/
def exGoogleLoginHandler : Handler :=
  ⟨HandlerClass.googleLogin, ⟨"https", "hub.example.org", "/hub/google/login"⟩⟩

/-- A github login request (attempt B of the interleaving trace). -/
def exGithubLoginHandler : Handler :=
  ⟨HandlerClass.githubLogin, ⟨"https", "hub.example.org", "/hub/github/login"⟩⟩

/-- The spec's chooser example: POST with `next=/foo` and `login_github=1`. -/
def exCtxGithub : PostContext :=
  ⟨"http", "hub.example.org", "/hub/", [("next", "/foo"), ("login_github", "1")]⟩

/-- A chooser POST carrying `login_google` present but with an empty value,
alongside `login_github=1`. -/
def exCtxEmptyGoogle : PostContext :=
  ⟨"http", "hub.example.org", "/hub/",
   [("next", "/foo"), ("login_google", ""), ("login_github", "1")]⟩

/-- A chooser POST with no provider flag at all. -/
def exCtxNoFlag : PostContext :=
  ⟨"http", "hub.example.org", "/hub/", [("next", "/foo")]⟩

/-- The dispatcher state after attempt A (google) has resolved its callback
URL on `exStateC2`. -/
def exStateAfterA : MultiOAuthenticator :=
  (exStateC2.get_callback_url (some exGoogleLoginHandler)).1

/-- The dispatcher state after attempt B (github) has then resolved its
callback URL on the same shared instance. -/
def exStateAfterB : MultiOAuthenticator :=
  (exStateAfterA.get_callback_url (some exGithubLoginHandler)).1

/-! ## Theorems -/

/-- The takeWhile scan runs through a prefix free of `?` and `#` and stops at the
`?` that starts the query string. -/
theorem takeWhile_append_qmark (l₁ l₂ : List Char)
    (h : ∀ c ∈ l₁, (c != '?' && c != '#') = true) :
    List.takeWhile (fun c => c != '?' && c != '#') (l₁ ++ '?' :: l₂) = l₁ := by
  induction l₁ with
  | nil => simp [List.takeWhile]
  | cons c l ih =>
    have hc := h c (List.mem_cons_self c l)
    simp only [List.cons_append, List.takeWhile, hc, List.append_eq]
    rw [ih (fun d hd => h d (List.mem_cons_of_mem c hd))]

/-- The urlsplit path keeps the path and discards the query string. -/
theorem urlsplitPath_query (path query : String)
    (h : ∀ c ∈ path.data, (c != '?' && c != '#') = true) :
    urlsplitPath (path ++ "?" ++ query) = path := by
  unfold urlsplitPath
  have hq : ("?" : String).data = ['?'] := rfl
  have hd : (path ++ "?" ++ query).data = path.data ++ '?' :: query.data := by
    simp [String.data_append, hq]
  rw [hd, takeWhile_append_qmark _ _ h]

/-- C5: for a google login handler whose adapter has no configured callback
URL, with inbound request `scheme://host/hub/google/login`,
`get_callback_url` returns exactly `scheme://host/hub/google/callback`:
scheme, host and the hub path prefix are preserved and the trailing `/login`
segment becomes `/callback`. -/
theorem c5_callback_url_roundtrip (st : MultiOAuthenticator) (scheme host : String)
    (hurl : st.google_authenticator.oauth_callback_url = "") :
    (st.get_callback_url
        (some ⟨HandlerClass.googleLogin, ⟨scheme, host, "/hub/google/login"⟩⟩)).2
      = Except.ok (scheme ++ "://" ++ host ++ "/hub/google/callback") := by
  have hrepl : replaceLoginCallback (urlsplitPath "/hub/google/login")
      = "/hub/google/callback" := rfl
  simp [MultiOAuthenticator.get_callback_url, isGoogleLoginHandler, googleBlockTail,
        MultiOAuthenticator.set_oauth_tokens, truthyS, hurl, githubBlock, gitlabBlock,
        isGitHubLoginHandler, isGitLabLoginHandler, synthURL, hrepl]

/-- C5 witness: on the all-enabled example state (google's callback URL
unconfigured), a google login request at
`https://hub.example.org/hub/google/login` resolves to
`https://hub.example.org/hub/google/callback`. -/
theorem c5_callback_url_roundtrip_witness :
    (exState.get_callback_url
        (some ⟨HandlerClass.googleLogin, ⟨"https", "hub.example.org", "/hub/google/login"⟩⟩)).2
      = Except.ok "https://hub.example.org/hub/google/callback" :=
  (c5_callback_url_roundtrip exState "https" "hub.example.org" rfl).trans (by rfl)

/-- C9: whenever `get_callback_url` reaches the synthesis tail (a handler
owned by no provider, or a google login handler with no configured callback
URL), the result is built from the request's protocol, host and path only —
the query string after `?` is discarded — and the path transformation is
`replaceLoginCallback`, which replaces every occurrence of `/login`, not
only a trailing segment. -/
theorem c9_callback_synthesis (st : MultiOAuthenticator) (cls : HandlerClass)
    (scheme host path query : String)
    (hq : ∀ c ∈ path.data, (c != '?' && c != '#') = true)
    (hcase : (isGoogleLoginHandler cls = false ∧ isGitHubLoginHandler cls = false
               ∧ isGitLabLoginHandler cls = false)
             ∨ (cls = HandlerClass.googleLogin
               ∧ st.google_authenticator.oauth_callback_url = "")) :
    (st.get_callback_url (some ⟨cls, ⟨scheme, host, path ++ "?" ++ query⟩⟩)).2
      = Except.ok (scheme ++ "://" ++ host ++ replaceLoginCallback path) := by
  have hp := urlsplitPath_query path query hq
  rcases hcase with ⟨h1, h2, h3⟩ | ⟨h1, h2⟩
  · simp [MultiOAuthenticator.get_callback_url, h1, githubBlock, h2, gitlabBlock, h3,
          synthURL, hp]
  · subst h1
    simp [MultiOAuthenticator.get_callback_url, isGoogleLoginHandler, googleBlockTail,
          MultiOAuthenticator.set_oauth_tokens, truthyS, h2, githubBlock, gitlabBlock,
          isGitHubLoginHandler, isGitLabLoginHandler, synthURL, hp]

/-- C9 witness: for an unowned handler at
`/hub/login/sub/login?next=%2Ffoo`, the query string is dropped and both
`/login` occurrences — the inner one included — become `/callback`. -/
theorem c9_callback_synthesis_witness :
    (exState.get_callback_url (some ⟨HandlerClass.other,
        ⟨"http", "hub.example.org", "/hub/login/sub/login" ++ "?" ++ "next=%2Ffoo"⟩⟩)).2
      = Except.ok ("http" ++ "://" ++ "hub.example.org"
          ++ replaceLoginCallback "/hub/login/sub/login")
    ∧ replaceLoginCallback "/hub/login/sub/login" = "/hub/callback/sub/callback" :=
  ⟨c9_callback_synthesis exState HandlerClass.other "http" "hub.example.org"
      "/hub/login/sub/login" "next=%2Ffoo" (by decide) (Or.inl ⟨rfl, rfl, rfl⟩), rfl⟩

/-- C6 amended: `get_callback_url` raises ValueError when the handler is
absent (never returning a URL in that case); there is no
UnroutableRequestError path and routing is by handler class alone — the
enable flags are never consulted.  A non-null handler matching none of the
three providers' login-handler shapes falls through and returns a callback
URL synthesized from its own request, while a handler matching a provider's
shape is handled by that provider's branch even when that provider is
disabled: a disabled google's login handler still returns google's
configured callback URL. -/
theorem c6_callback_url_failure_amended (st : MultiOAuthenticator) (h g : Handler)
    (hg : isGoogleLoginHandler h.cls = false)
    (hh : isGitHubLoginHandler h.cls = false)
    (hl : isGitLabLoginHandler h.cls = false)
    (hgcls : isGoogleLoginHandler g.cls = true)
    (hgurl : truthyS st.google_authenticator.oauth_callback_url = true) :
    (st.get_callback_url none).2
      = Except.error (PyError.valueError "MultiAuthenticator only works with a handler")
    ∧ (st.get_callback_url (some h)).2 = Except.ok (synthURL h)
    ∧ (({ st with enable_google := false }).get_callback_url (some g)).2
      = Except.ok st.google_authenticator.oauth_callback_url := by
  refine ⟨rfl, ?_, ?_⟩
  · simp [MultiOAuthenticator.get_callback_url, hg, githubBlock, hh, gitlabBlock, hl]
  · simp [MultiOAuthenticator.get_callback_url, hgcls, googleBlockTail,
          MultiOAuthenticator.set_oauth_tokens, hgurl]

/-- C6 amended witness: on the example state with configured google URL, the
missing-handler call raises ValueError, the unowned handler at
`/hub/foo/login` yields its synthesized URL, and google's login handler with
google disabled still returns google's configured callback URL. -/
theorem c6_callback_url_failure_amended_witness :
    ((exStateC3.get_callback_url none).2
      = Except.error (PyError.valueError "MultiAuthenticator only works with a handler")
    ∧ (exStateC3.get_callback_url (some exOtherHandler)).2 = Except.ok (synthURL exOtherHandler)
    ∧ (({ exStateC3 with enable_google := false }).get_callback_url
          (some exGoogleLoginHandler)).2
        = Except.ok exStateC3.google_authenticator.oauth_callback_url)
    ∧ synthURL exOtherHandler = "http://hub.example.org/hub/foo/callback"
    ∧ exStateC3.google_authenticator.oauth_callback_url = "https://google.example/cb" :=
  ⟨c6_callback_url_failure_amended exStateC3 exOtherHandler exGoogleLoginHandler
      rfl rfl rfl rfl rfl, rfl, rfl⟩

/-- The first-matching-provider selection equals the chooser's if/elif
cascade. -/
theorem selectedProvider_eq (st : MultiOAuthenticator) (ctx : PostContext) :
    selectedProvider st ctx =
      (if st.enable_google && truthyOpt (get_argument ctx.args "login_google") then
        some Provider.google
      else if st.enable_github && truthyOpt (get_argument ctx.args "login_github") then
        some Provider.github
      else if st.enable_gitlab && truthyOpt (get_argument ctx.args "login_gitlab") then
        some Provider.gitlab
      else none) := by
  unfold selectedProvider registryOrder
  cases hg : st.enable_google && truthyOpt (get_argument ctx.args "login_google") <;>
  cases hh : st.enable_github && truthyOpt (get_argument ctx.args "login_github") <;>
  cases hl : st.enable_gitlab && truthyOpt (get_argument ctx.args "login_gitlab") <;>
  simp [List.find?, providerEnabled, providerFlagName, hg, hh, hl]

/-- C7 counterexample: with all providers enabled and a form in which
`login_google` is present but empty (alongside `login_github=1`), the claim
— first flag *present* and enabled wins, i.e. google — predicts a redirect
to `.../google/login?next=%2Ffoo`; the code skips the empty google flag and
redirects to `.../github/login?next=%2Ffoo` instead. -/
theorem c7_chooser_presence_counterexample :
    MultiOAuthLoginHandler.post exState exCtxEmptyGoogle
        = PostAction.redirect 302 "http://hub.example.org/hub/github/login?next=%2Ffoo"
    ∧ MultiOAuthLoginHandler.post exState exCtxEmptyGoogle
        ≠ PostAction.redirect 302 "http://hub.example.org/hub/google/login?next=%2Ffoo"
    ∧ get_argument exCtxEmptyGoogle.args "login_google" = some ""
    ∧ exState.enable_google = true := by
  refine ⟨rfl, by decide, rfl, rfl⟩

/-- C7 amended: the chooser POST checks the provider flags in registry order
google, github, gitlab; for the first flag that is present *with a
non-empty (truthy) value* and whose provider is enabled, it issues a
non-permanent (302) redirect to
`<scheme>://<host><hubPrefix><providerKey>/login` with the submitted `next`
value carried as a query argument. -/
theorem c7_chooser_redirect_amended (st : MultiOAuthenticator) (ctx : PostContext)
    (p : Provider) (hp : selectedProvider st ctx = some p) :
    MultiOAuthLoginHandler.post st ctx = PostAction.redirect 302 (loginRedirectURL ctx p) := by
  rw [selectedProvider_eq] at hp
  unfold MultiOAuthLoginHandler.post
  cases hg : st.enable_google && truthyOpt (get_argument ctx.args "login_google") <;>
  cases hh : st.enable_github && truthyOpt (get_argument ctx.args "login_github") <;>
  cases hl : st.enable_gitlab && truthyOpt (get_argument ctx.args "login_gitlab") <;>
  simp [hg, hh, hl] at hp ⊢ <;>
  simp [← hp, loginRedirectURL, providerLoginPath, url_concat]

/-- C7 amended witness: the spec's example — `next=/foo`, only
`login_github=1` set — selects github and redirects (302) to
`http://hub.example.org/hub/github/login?next=%2Ffoo`. -/
theorem c7_chooser_redirect_amended_witness :
    (MultiOAuthLoginHandler.post exState exCtxGithub
        = PostAction.redirect 302 (loginRedirectURL exCtxGithub Provider.github))
    ∧ loginRedirectURL exCtxGithub Provider.github
        = "http://hub.example.org/hub/github/login?next=%2Ffoo" :=
  ⟨c7_chooser_redirect_amended exState exCtxGithub Provider.github (by rfl), by rfl⟩

/-- Each provider block of `get_handlers` contributes its two re-registered
routes when enabled and nothing when disabled; the dict lookups of
`/oauth_login` and `/oauth_callback` always succeed on the collaborator's
handler map. -/
theorem providerRoutes_eq (b : Bool) (lp cp : String) (a : SubAuthenticator) :
    providerRoutes b lp cp a
      = Except.ok (if b then [(lp, a.login_handler), (cp, a.callback_handler)] else []) := by
  cases b <;> rfl

/-- The embedded `get_handlers` never fails and returns exactly the route table. -/
theorem get_handlers_eq (st : MultiOAuthenticator) :
    st.get_handlers = Except.ok (multiRouteTable st) := by
  unfold MultiOAuthenticator.get_handlers multiRouteTable
  rw [providerRoutes_eq, providerRoutes_eq, providerRoutes_eq]

/-- C4: for every subset of enabled providers, `get_handlers` returns the
route table with exactly `2|P| + 1` entries: the `/login` chooser route
first, then `/<key>/login` and `/<key>/callback` carrying that provider's
own login and callback handlers for each enabled key; no route of a
disabled provider appears. -/
theorem c4_route_table (st : MultiOAuthenticator) :
    st.get_handlers = Except.ok (multiRouteTable st)
    ∧ (multiRouteTable st).length = 2 * enabledCount st + 1
    ∧ (multiRouteTable st).head? = some ("/login", HandlerClass.multiLogin)
    ∧ (st.enable_google = true →
        ("/google/login", st.google_authenticator.login_handler) ∈ multiRouteTable st
        ∧ ("/google/callback", st.google_authenticator.callback_handler) ∈ multiRouteTable st)
    ∧ (st.enable_github = true →
        ("/github/login", st.github_authenticator.login_handler) ∈ multiRouteTable st
        ∧ ("/github/callback", st.github_authenticator.callback_handler) ∈ multiRouteTable st)
    ∧ (st.enable_gitlab = true →
        ("/gitlab/login", st.gitlab_authenticator.login_handler) ∈ multiRouteTable st
        ∧ ("/gitlab/callback", st.gitlab_authenticator.callback_handler) ∈ multiRouteTable st)
    ∧ (st.enable_google = false → ∀ hc,
        ("/google/login", hc) ∉ multiRouteTable st
        ∧ ("/google/callback", hc) ∉ multiRouteTable st)
    ∧ (st.enable_github = false → ∀ hc,
        ("/github/login", hc) ∉ multiRouteTable st
        ∧ ("/github/callback", hc) ∉ multiRouteTable st)
    ∧ (st.enable_gitlab = false → ∀ hc,
        ("/gitlab/login", hc) ∉ multiRouteTable st
        ∧ ("/gitlab/callback", hc) ∉ multiRouteTable st) := by
  refine ⟨get_handlers_eq st, ?_, ?_, ?_, ?_, ?_, ?_, ?_, ?_⟩
  · cases hg : st.enable_google <;> cases hh : st.enable_github <;>
      cases hl : st.enable_gitlab <;>
      simp [multiRouteTable, enabledCount, hg, hh, hl]
  · simp [multiRouteTable]
  · intro h
    constructor <;> simp [multiRouteTable, h]
  · intro h
    constructor <;> simp [multiRouteTable, h]
  · intro h
    constructor <;> simp [multiRouteTable, h]
  · intro h hc
    constructor <;> cases hh : st.enable_github <;> cases hl : st.enable_gitlab <;>
      simp [multiRouteTable, h, hh, hl]
  · intro h hc
    constructor <;> cases hg : st.enable_google <;> cases hl : st.enable_gitlab <;>
      simp [multiRouteTable, h, hg, hl]
  · intro h hc
    constructor <;> cases hg : st.enable_google <;> cases hh : st.enable_github <;>
      simp [multiRouteTable, h, hg, hh]

/-- C4 witness: with github disabled and google/gitlab enabled, the table
has `2 * 2 + 1` routes, google's login route (carrying google's own login
handler) is present, and github's login route is absent. -/
theorem c4_route_table_witness :
    (exStateC4.get_handlers = Except.ok (multiRouteTable exStateC4)
      ∧ (multiRouteTable exStateC4).length = 2 * enabledCount exStateC4 + 1)
    ∧ ("/google/login", HandlerClass.googleLogin) ∈ multiRouteTable exStateC4
    ∧ ("/github/login", HandlerClass.githubLogin) ∉ multiRouteTable exStateC4 :=
  ⟨⟨(c4_route_table exStateC4).1, (c4_route_table exStateC4).2.1⟩,
   ((c4_route_table exStateC4).2.2.2.1 rfl).1,
   ((c4_route_table exStateC4).2.2.2.2.2.2.2.1 rfl HandlerClass.githubLogin).1⟩

/-- C10: right after `__init__` the readable `client_id`, `client_secret`
and `scope` are all `None`; `set_oauth_tokens` always overwrites the three
together from a single sub-authenticator; and the only way
`get_callback_url` changes the instance is through `set_oauth_tokens`
applied to one of its own three sub-authenticators (the properties expose no
other setter in the embedding). -/
theorem c10_credential_context_lifecycle (eg eh el : Bool)
    (ga gha gla sub : SubAuthenticator) (cfg : TraitletsConfig)
    (st : MultiOAuthenticator) (handler : Option Handler) :
    ((MultiOAuthenticator.init eg eh el ga gha gla cfg).client_id = none
      ∧ (MultiOAuthenticator.init eg eh el ga gha gla cfg).client_secret = none
      ∧ (MultiOAuthenticator.init eg eh el ga gha gla cfg).scope = none)
    ∧ ((st.set_oauth_tokens sub).client_id = some sub.client_id
      ∧ (st.set_oauth_tokens sub).client_secret = some sub.client_secret
      ∧ (st.set_oauth_tokens sub).scope = some sub.scope)
    ∧ ((st.get_callback_url handler).1 = st
      ∨ (st.get_callback_url handler).1 = st.set_oauth_tokens st.google_authenticator
      ∨ (st.get_callback_url handler).1 = st.set_oauth_tokens st.github_authenticator
      ∨ (st.get_callback_url handler).1 = st.set_oauth_tokens st.gitlab_authenticator) := by
  refine ⟨⟨rfl, rfl, rfl⟩, ⟨rfl, rfl, rfl⟩, ?_⟩
  match handler with
  | none => exact Or.inl rfl
  | some h =>
    obtain ⟨cls, req⟩ := h
    cases cls
    case googleLogin =>
      refine Or.inr (Or.inl ?_)
      show (googleBlockTail (st.set_oauth_tokens st.google_authenticator)
              ⟨HandlerClass.googleLogin, req⟩).1 = _
      unfold googleBlockTail
      split <;> rfl
    case githubLogin =>
      refine Or.inr (Or.inr (Or.inl ?_))
      show (githubBlockTail (st.set_oauth_tokens st.github_authenticator)
              ⟨HandlerClass.githubLogin, req⟩).1 = _
      unfold githubBlockTail
      split
      · rfl
      · split
        · rfl
        · split <;> rfl
    case gitlabLogin =>
      refine Or.inr (Or.inr (Or.inr ?_))
      show (gitlabBlockTail (st.set_oauth_tokens st.gitlab_authenticator)
              ⟨HandlerClass.gitlabLogin, req⟩).1 = _
      unfold gitlabBlockTail
      split
      · rfl
      · split
        · rfl
        · split <;> rfl
    all_goals exact Or.inl rfl

/-- C10 witness: on the example instances, a fresh dispatcher's client_id is
None and `set_oauth_tokens` with the github sub-authenticator installs
github's client_id. -/
theorem c10_credential_context_lifecycle_witness :
    exState.client_id = none
    ∧ (exState.set_oauth_tokens exGithubSub).client_id = some exGithubSub.client_id :=
  ⟨(c10_credential_context_lifecycle true true true exGoogleSub exGithubSub exGitlabSub
      exGithubSub ⟨none, none⟩ exState none).1.1,
   (c10_credential_context_lifecycle true true true exGoogleSub exGithubSub exGitlabSub
      exGithubSub ⟨none, none⟩ exState none).2.1.1⟩

/-- C1: the claim says `authenticate` resolves the owning provider among all
enabled providers (so a GitLab callback goes to the gitlab authenticator,
and an unknown handler fails).  The code checks only GoogleOAuthHandler and
sends every other handler — including gitlab callbacks and handlers owned by
no provider — to the github authenticator, never raising: with the example
sub-authenticators, a gitlab callback yields the github authenticator's
result, not the gitlab authenticator's. -/
theorem c1_authenticate_dispatch_bug :
    exState.authenticate exGitlabCallbackHandler [] = some "github-user"
    ∧ exState.gitlab_authenticator.authenticate exGitlabCallbackHandler [] = some "gitlab-user"
    ∧ exState.authenticate exOtherHandler [] = some "github-user" :=
  ⟨rfl, rfl, rfl⟩

/-- C2: the claim's invariant fails on the code.  In the interleaved trace
(attempt A resolves its callback URL for google, then attempt B resolves its
callback URL for github on the same shared dispatcher), the credential
context subsequently read for A's exchange holds github's client_id and
client_secret, not google's. -/
theorem c2_credential_context_race :
    exStateAfterB.client_id = some "github-client-id"
    ∧ exStateAfterB.client_id ≠ some "google-client-id"
    ∧ exStateAfterB.client_secret = some "github-secret"
    ∧ exStateC2.google_authenticator.client_id = "google-client-id"
    ∧ exStateAfterA.client_id = some "google-client-id" := by
  refine ⟨rfl, by decide, rfl, rfl, rfl⟩

/-- C3: the claim says all three providers return their adapter's configured
callback URL.  Only google does: the github (and gitlab) blocks read
`self.config.<name>_authenticator` — the traitlets config object — instead
of the adapter instance, so with the default (empty) config the call raises
AttributeError even though the github adapter has a configured callback URL,
while the identical google request returns its configured URL. -/
theorem c3_configured_callback_url_bug :
    (exStateC3.get_callback_url (some exGithubLoginHandler)).2
      = Except.error (PyError.attributeError "github_authenticator")
    ∧ exStateC3.github_authenticator.oauth_callback_url = "https://github.example/cb"
    ∧ (exStateC3.get_callback_url (some exGoogleLoginHandler)).2
      = Except.ok "https://google.example/cb" :=
  ⟨rfl, rfl, rfl⟩

/-- C6 counterexample: a non-null handler matching no enabled provider's
shape does not fail with UnroutableRequestError — `get_callback_url` returns
a synthesized URL for it (all three providers are enabled in `exState`). -/
theorem c6_unroutable_counterexample :
    (exState.get_callback_url (some exOtherHandler)).2
      = Except.ok "http://hub.example.org/hub/foo/callback" := by
  rfl

/-- C8: a chooser POST in which no provider flag is both present and enabled
issues no redirect: it re-renders the chooser page with the login_error
message "Unknown or missing authenticator" and status 200. -/
theorem c8_chooser_no_provider_error (st : MultiOAuthenticator) (ctx : PostContext)
    (hg : st.enable_google = false ∨ get_argument ctx.args "login_google" = none)
    (hh : st.enable_github = false ∨ get_argument ctx.args "login_github" = none)
    (hl : st.enable_gitlab = false ∨ get_argument ctx.args "login_gitlab" = none) :
    MultiOAuthLoginHandler.post st ctx
      = PostAction.render 200 (some "Unknown or missing authenticator") := by
  have g : (st.enable_google && truthyOpt (get_argument ctx.args "login_google")) = false := by
    rcases hg with h | h <;> simp [h, truthyOpt]
  have h2 : (st.enable_github && truthyOpt (get_argument ctx.args "login_github")) = false := by
    rcases hh with h | h <;> simp [h, truthyOpt]
  have h3 : (st.enable_gitlab && truthyOpt (get_argument ctx.args "login_gitlab")) = false := by
    rcases hl with h | h <;> simp [h, truthyOpt]
  simp [MultiOAuthLoginHandler.post, g, h2, h3]

/-- C8 witness: with all providers enabled and a form carrying only `next`,
the chooser re-renders with the error message and status 200. -/
theorem c8_chooser_no_provider_error_witness :
    MultiOAuthLoginHandler.post exState exCtxNoFlag
      = PostAction.render 200 (some "Unknown or missing authenticator") :=
  c8_chooser_no_provider_error exState exCtxNoFlag (Or.inr rfl) (Or.inr rfl) (Or.inr rfl)

end MultiOAuth
